import Mathlib

/-!
Verification of the ASOP compliance API (src/main.py).

The file shallowly embeds the three HTTP handlers that touch external state
(`upload_pdf`, `get_documents`, `get_document`) together with the PDF text
extractor `extract_text_from_pdf`.  External effects that can fail
(file write, PDF open, per-page text extraction, the OpenAI call, cursor
creation, INSERT execution, COMMIT) are driven by explicit oracles, so a run
of a handler is a pure function of the oracle, the wall-clock time and the
store contents.  Each run records, besides its HTTP-level result, the
observable side effects the claims talk about: whether the uploaded file was
written, the new store contents, and how many connections were checked out of
(`getconns`) and returned to (`putconns`) the psycopg2 pool.

Python exceptions are modelled with `Except`; FastAPI `HTTPException` is the
`PyExc.http` constructor.  The blanket `except Exception` at the end of the
upload handler (src/main.py:308-309) is modelled faithfully by `upload_pdf`
wrapping every inner exception, `HTTPException` included, into a fresh
status-500 `HTTPException` whose detail is the string form of the caught
exception.  Timestamps are natural numbers counting microseconds; the
`strftime` rendering at second resolution is modelled by `timestampString`,
which depends only on the whole-second part (the calendar rendering is
abstracted to a decimal rendering that, like the original format, is
injective on whole seconds).
-/

/-- HTTP-level error: status code plus detail string, as carried by
FastAPI's HTTPException. -/
structure HttpError where
  status : Nat
  detail : String
deriving DecidableEq

/-- Python exceptions observable in the handlers: FastAPI HTTPException,
OSError from file IO, psycopg2 database errors, and psycopg2
InterfaceError from creating a cursor on a dead connection. -/
inductive PyExc where
  | http (e : HttpError)
  | oserror (msg : String)
  | dberror (msg : String)
  | interfaceError (msg : String)
deriving DecidableEq

/-- The string form of an exception, as used by the blanket
`except Exception as e: raise HTTPException(500, str(e))` in the upload
handler.  Starlette renders an HTTPException as "status: detail". -/
def excMessage : PyExc → String
  | .http e => Nat.repr e.status ++ ": " ++ e.detail
  | .oserror msg => msg
  | .dberror msg => msg
  | .interfaceError msg => msg

/-- ASCII lowercasing of one character, the fragment of Python's
`str.lower` the filenames exercise. -/
def pyLowerChar (c : Char) : Char :=
  if 'A' ≤ c && c ≤ 'Z' then Char.ofNat (c.toNat + 32) else c

/-- Python `str.lower` restricted to ASCII. -/
def pyLower (s : String) : String :=
  ⟨s.data.map pyLowerChar⟩

/-- Python `str.endswith`. -/
def pyEndsWith (s sfx : String) : Bool :=
  sfx.data.isSuffixOf s.data

/-- The upload validation `file.filename.lower().endswith('.pdf')`
(src/main.py:243). -/
def hasPdfExtension (name : String) : Bool :=
  pyEndsWith (pyLower name) ".pdf"

/-- Rendering of `datetime.now().strftime("%Y%m%d_%H%M%S")`
(src/main.py:248) over a clock in microseconds: the format has second
resolution, so the rendering depends only on `nowMicros / 1000000`; the
calendar layout is abstracted to a decimal rendering of the whole seconds,
which is likewise injective on whole seconds. -/
def timestampString (nowMicros : Nat) : String :=
  Nat.repr (nowMicros / 1000000)

/-- The stored filename `f"{timestamp}_{file.filename}"` (src/main.py:249). -/
def storedFilename (nowMicros : Nat) (orig : String) : String :=
  timestampString nowMicros ++ "_" ++ orig

/-- The storage path `os.path.join(UPLOAD_DIR, filename)` (src/main.py:250). -/
def storedPath (nowMicros : Nat) (orig : String) : String :=
  "uploads/" ++ storedFilename nowMicros orig

/-- Outcome of `extract_text_from_pdf`: the returned text or the raised
exception, plus whether `fitz.open` produced a handle and whether
`doc.close()` was reached. -/
structure ExtractRun where
  result : Except PyExc String
  opened : Bool
  closed : Bool

/-- The page loop `for page in doc: text += page.get_text() + "\n"`
(src/main.py:79-80).  A page is `some text` when `page.get_text()` returns
`text` and `none` when it raises; the loop aborts at the first raising
page. -/
def readPages : List (Option String) → String → Option String
  | [], acc => some acc
  | none :: _, _ => none
  | some t :: ps, acc => readPages ps (acc ++ (t ++ "\n"))

/-- Embedding of `extract_text_from_pdf` (src/main.py:76-84): open the
document, run the page loop, close the handle and return the text; any
exception is caught and re-raised as HTTPException 500.  `doc.close()`
(src/main.py:81) sits on the straight-line path inside the `try`, so it is
reached only when opening and every page succeed — there is no
`finally`. -/
def extract_text_from_pdf (openOk : Bool) (pages : List (Option String)) : ExtractRun :=
  if openOk then
    match readPages pages "" with
    | some text => ⟨.ok text, true, true⟩
    | none =>
        ⟨.error (.http ⟨500, "Error extracting text from PDF: page text extraction failed"⟩),
         true, false⟩
  else
    ⟨.error (.http ⟨500, "Error extracting text from PDF: cannot open document"⟩),
     false, false⟩

/-- The specification's description of the extractor result, written from
the spec's words: the concatenation, in page order, of each page's text
followed by a newline (empty for a 0-page document).  Kept separate from
the embedding so the two can be compared. -/
def concatNewline : List String → String
  | [] => ""
  | t :: ts => t ++ "\n" ++ concatNewline ts

/-- The JSONB payload `json.dumps({"analysis": analysis})`
(src/main.py:285), kept structured. -/
structure AnalysisPayload where
  analysis : String
deriving DecidableEq

/-- One row of the `uploads` relation (src/main.py:136-145). -/
structure UploadRow where
  id : Nat
  filename : String
  extracted_text : String
  asop_analysis : AnalysisPayload
  created_at : Nat
deriving DecidableEq

/-- The projection `SELECT id, filename, created_at` used by the listing
endpoint (src/main.py:323-327): exactly these three fields. -/
structure DocSummary where
  id : Nat
  filename : String
  created_at : Nat
deriving DecidableEq

/-- Project a row to its listing summary. -/
def docSummaryOf (r : UploadRow) : DocSummary :=
  ⟨r.id, r.filename, r.created_at⟩

/-- Comparison realising `ORDER BY created_at DESC`: `a` may come before
`b` when `b.created_at ≤ a.created_at`. -/
def createdDescLe (a b : UploadRow) : Bool :=
  b.created_at ≤ a.created_at

/-- Semantics of `ORDER BY created_at DESC` over the row list. -/
def orderByCreatedDesc (db : List UploadRow) : List UploadRow :=
  db.mergeSort createdDescLe

/-- Semantics of the listing query
`SELECT id, filename, created_at FROM uploads ORDER BY created_at DESC`
(src/main.py:323-327). -/
def selectDocuments (db : List UploadRow) : List DocSummary :=
  (orderByCreatedDesc db).map docSummaryOf

/-- Semantics of `SELECT * FROM uploads WHERE id = %s` plus `fetchone()`
(src/main.py:348-351): the first row with the requested id, if any. -/
def selectById (db : List UploadRow) (docId : Nat) : Option UploadRow :=
  db.find? (fun r => r.id == docId)

/-- Failure oracle for the read-only handlers: whether `conn.cursor(...)`,
`cur.execute(...)` and the fetch succeed. -/
structure DbOracle where
  cursorOk : Bool
  executeOk : Bool
  fetchOk : Bool
deriving DecidableEq

/-- The all-succeed oracle: the database behaves normally. -/
def dbOk : DbOracle :=
  ⟨true, true, true⟩

/-- Outcome of the `GET /documents/` handler: result plus pool traffic. -/
structure ListRun where
  result : Except PyExc (List DocSummary)
  getconns : Nat
  putconns : Nat

/-- Embedding of `get_documents` (src/main.py:311-332).  The connection is
checked out first (`getconns = 1` on every path).  `conn.cursor(...)`
(src/main.py:321) is called BEFORE the `try`, so when it raises, the
`finally` that returns the connection never runs (`putconns = 0`).  Inside
the `try`, any failure still reaches the `finally`, which closes the cursor
and returns the connection (`putconns = 1`). -/
def get_documents (o : DbOracle) (db : List UploadRow) : ListRun :=
  if o.cursorOk then
    if o.executeOk then
      if o.fetchOk then
        ⟨.ok (selectDocuments db), 1, 1⟩
      else ⟨.error (.dberror "fetchall failed"), 1, 1⟩
    else ⟨.error (.dberror "execute failed"), 1, 1⟩
  else ⟨.error (.interfaceError "cursor creation failed: connection already closed"), 1, 0⟩

/-- Outcome of the `GET /documents/{doc_id}` handler. -/
structure GetRun where
  result : Except PyExc UploadRow
  getconns : Nat
  putconns : Nat

/-- Embedding of `get_document` (src/main.py:334-357): same shape as
`get_documents`; on a successful query, a missing row raises
HTTPException 404 "Document not found" (src/main.py:352-353), which
propagates through the `finally` after the connection is returned. -/
def get_document (o : DbOracle) (db : List UploadRow) (docId : Nat) : GetRun :=
  if o.cursorOk then
    if o.executeOk then
      if o.fetchOk then
        match selectById db docId with
        | some row => ⟨.ok row, 1, 1⟩
        | none => ⟨.error (.http ⟨404, "Document not found"⟩), 1, 1⟩
      else ⟨.error (.dberror "fetchone failed"), 1, 1⟩
    else ⟨.error (.dberror "execute failed"), 1, 1⟩
  else ⟨.error (.interfaceError "cursor creation failed: connection already closed"), 1, 0⟩

/-- Failure oracle for one run of the upload handler: whether the file
write, the PDF open, each page extraction, the OpenAI call (`.error msg`
models `openai.OpenAIError` with message `msg`), cursor creation, the
INSERT and the COMMIT succeed. -/
structure UploadOracle where
  saveOk : Bool
  openOk : Bool
  pages : List (Option String)
  analysisResult : Except String String
  cursorOk : Bool
  insertOk : Bool
  commitOk : Bool

/-- An oracle on which every step succeeds: a two-page PDF reading
"Hello" / "World", analysis "OK". -/
def uploadOk : UploadOracle :=
  ⟨true, true, [some "Hello", some "World"], Except.ok "OK", true, true, true⟩

/-- An oracle on which only the OpenAI call fails, with a provider
error. -/
def analysisFails : UploadOracle :=
  ⟨true, true, [some "Hello", some "World"], Except.error "rate limited", true, true, true⟩

/-- The success payload returned by the upload handler
(src/main.py:300-307). -/
structure UploadResponse where
  message : String
  id : Nat
  filename : String
  path : String
  extracted_text : String
  asop_analysis : String
deriving DecidableEq

/-- Outcome of the body of the upload handler's outer `try`
(src/main.py:241-307), before the blanket `except Exception`:
result or raised exception, whether the uploaded file was written, whether
a row was committed, the resulting store contents, and pool traffic. -/
structure UploadInnerRun where
  result : Except PyExc UploadResponse
  fileWritten : Bool
  rowInserted : Bool
  newDb : List UploadRow
  getconns : Nat
  putconns : Nat

/-- Embedding of the upload handler's `try` body (src/main.py:241-307):
validate the extension (reject with HTTPException 400), build the
timestamped filename and path, write the file, extract the text, call the
OpenAI API (on `OpenAIError` raise HTTPException 400 with the error text),
then check out a connection and insert.  `conn.cursor()` (src/main.py:282)
sits between the checkout and the inner `try`, so when it raises the
connection is never returned; inside the inner `try`, a failing INSERT or
COMMIT is rolled back and re-raised as HTTPException 500, and the `finally`
(src/main.py:295-298) closes the cursor and returns the connection.  A
committed insert appends one row whose serial id extends the store. -/
def uploadBody (o : UploadOracle) (now : Nat) (origName : String)
    (db : List UploadRow) : UploadInnerRun :=
  if hasPdfExtension origName then
    if o.saveOk then
      match (extract_text_from_pdf o.openOk o.pages).result with
      | .error e => ⟨.error e, true, false, db, 0, 0⟩
      | .ok text =>
        match o.analysisResult with
        | .error msg =>
            ⟨.error (.http ⟨400, "OpenAI API Error: " ++ msg⟩), true, false, db, 0, 0⟩
        | .ok analysis =>
          if o.cursorOk then
            if o.insertOk then
              if o.commitOk then
                ⟨.ok ⟨"File uploaded and analyzed successfully", db.length + 1,
                      storedFilename now origName, storedPath now origName, text, analysis⟩,
                 true, true,
                 db ++ [⟨db.length + 1, storedFilename now origName, text, ⟨analysis⟩, now⟩],
                 1, 1⟩
              else ⟨.error (.http ⟨500, "Database operation failed: commit failed"⟩),
                    true, false, db, 1, 1⟩
            else ⟨.error (.http ⟨500, "Database operation failed: insert failed"⟩),
                  true, false, db, 1, 1⟩
          else ⟨.error (.interfaceError "cursor creation failed: connection already closed"),
                true, false, db, 1, 0⟩
    else ⟨.error (.oserror "could not write uploaded file"), false, false, db, 0, 0⟩
  else ⟨.error (.http ⟨400, "Only PDF files are allowed"⟩), false, false, db, 0, 0⟩

/-- Outcome of the whole `POST /upload/` handler, after the blanket
`except Exception`: every error is an HTTPException. -/
structure UploadRun where
  result : Except HttpError UploadResponse
  fileWritten : Bool
  rowInserted : Bool
  newDb : List UploadRow
  getconns : Nat
  putconns : Nat

/-- Embedding of `upload_pdf` (src/main.py:229-309).  The blanket
`except Exception as e: raise HTTPException(status_code=500, detail=str(e))`
(src/main.py:308-309) catches EVERY exception the body raises — FastAPI's
HTTPException is a subclass of Exception — and re-raises it as a
status-500 HTTPException carrying the caught exception's string form. -/
def upload_pdf (o : UploadOracle) (now : Nat) (origName : String)
    (db : List UploadRow) : UploadRun :=
  let r := uploadBody o now origName db
  match r.result with
  | .ok resp => ⟨.ok resp, r.fileWritten, r.rowInserted, r.newDb, r.getconns, r.putconns⟩
  | .error e =>
      ⟨.error ⟨500, excMessage e⟩, r.fileWritten, r.rowInserted, r.newDb, r.getconns, r.putconns⟩

/-- The HTTP status of a failed upload run, `none` on success. -/
def runStatus (r : UploadRun) : Option Nat :=
  match r.result with
  | .error e => some e.status
  | .ok _ => none

/-! Helper lemmas shared by several theorems. -/

/-- When every page extracts successfully, the page loop returns the
accumulator followed by the pages' texts, each with a trailing newline. -/
theorem readPages_map_some (texts : List String) (acc : String) :
    readPages (texts.map some) acc = some (acc ++ concatNewline texts) := by
  induction texts generalizing acc with
  | nil => simp [readPages, concatNewline]
  | cons t ts ih => simp [readPages, concatNewline, ih, String.append_assoc]

/-- The outer blanket `except Exception` of the upload handler does not
change whether the file was written. -/
theorem upload_pdf_fileWritten_eq (o : UploadOracle) (now : Nat) (origName : String)
    (db : List UploadRow) :
    (upload_pdf o now origName db).fileWritten = (uploadBody o now origName db).fileWritten := by
  unfold upload_pdf
  cases h : (uploadBody o now origName db).result <;> simp [h]

/-! Claim theorems. -/

/-- C1: the connection-pool claim fails on the code.  In `get_documents`,
when `conn.cursor(...)` (src/main.py:321) raises after the connection has
been checked out, the `try`/`finally` that returns the connection is never
entered: the run checks out one connection and returns none, leaving one
outstanding connection, not zero.  (`get_document` at src/main.py:346 and
`upload_pdf` at src/main.py:282 have the same shape.) -/
theorem get_documents_cursor_failure_leaks_connection :
    (get_documents ⟨false, true, true⟩ []).getconns = 1 ∧
    (get_documents ⟨false, true, true⟩ []).putconns = 0 :=
  ⟨rfl, rfl⟩

/-- C2: an upload whose filename does not end in ".pdf" does NOT produce a
400 response.  The handler raises HTTPException 400 "Only PDF files are
allowed" (src/main.py:245), but the blanket `except Exception`
(src/main.py:308-309) catches it — HTTPException is an Exception — and
re-raises it as a status-500 HTTPException, so the client sees 500. -/
theorem upload_wrong_extension_returns_500 :
    hasPdfExtension "notes.txt" = false ∧
    runStatus (upload_pdf uploadOk 0 "notes.txt" []) = some 500 ∧
    (upload_pdf uploadOk 0 "notes.txt" []).result =
      Except.error ⟨500, "400: Only PDF files are allowed"⟩ :=
  ⟨by decide, rfl, rfl⟩

/-- C3: two successful uploads of the identically-named file "report.pdf",
submitted at distinct instants inside the same wall-clock second
(microsecond clocks 0 and 999999), produce two store rows whose stored
filenames are EQUAL: the timestamp format `%Y%m%d_%H%M%S` (src/main.py:248)
has only second resolution and carries no disambiguator. -/
theorem same_second_uploads_same_stored_filename :
    (0 : Nat) ≠ 999999 ∧
    storedFilename 0 "report.pdf" = storedFilename 999999 "report.pdf" ∧
    ((upload_pdf uploadOk 999999 "report.pdf"
        (upload_pdf uploadOk 0 "report.pdf" []).newDb).newDb.map (fun r => r.filename)) =
      [storedFilename 0 "report.pdf", storedFilename 0 "report.pdf"] :=
  ⟨by decide, rfl, rfl⟩

/-- C4: when the OpenAI call fails with a provider error during an upload,
the observable outcome is NEITHER documented policy.  The handler raises
HTTPException 400 with the error text (src/main.py:276-278) before any
database work, so no row is created — but the blanket `except Exception`
(src/main.py:308-309) rewraps the 400 as a 500, so the client sees 500
with no row, instead of "400 and no row" or "200 and a row carrying the
error text". -/
theorem upload_analysis_failure_returns_500_without_row :
    runStatus (upload_pdf analysisFails 0 "doc.pdf" []) = some 500 ∧
    (upload_pdf analysisFails 0 "doc.pdf" []).rowInserted = false ∧
    (upload_pdf analysisFails 0 "doc.pdf" []).newDb = [] ∧
    (upload_pdf analysisFails 0 "doc.pdf" []).result =
      Except.error ⟨500, "400: OpenAI API Error: rate limited"⟩ :=
  ⟨rfl, rfl, rfl, rfl⟩

/-- C5 counterexample: on a one-page document whose page extraction
raises, `extract_text_from_pdf` opens a handle and exits (raising
HTTPException 500) WITHOUT closing it: `doc.close()` (src/main.py:81) is
on the straight-line success path and there is no `finally`, so the
page-error exit path releases nothing. -/
theorem extract_page_error_leaves_handle_open :
    (extract_text_from_pdf true [none]).opened = true ∧
    (extract_text_from_pdf true [none]).closed = false ∧
    (extract_text_from_pdf true [none]).result =
      Except.error (.http ⟨500, "Error extracting text from PDF: page text extraction failed"⟩) :=
  ⟨rfl, rfl, rfl⟩

/-- C5 (amended): the document handle is closed on the success path —
whenever opening succeeds and every page's text extraction succeeds —
while on a page error the function raises HTTPException 500 with the
handle left unclosed. -/
theorem extract_success_closes_handle (texts : List String) :
    (extract_text_from_pdf true (texts.map some)).closed = true := by
  simp [extract_text_from_pdf, readPages_map_some texts ""]

/-- C7: on a valid PDF — the document opens and each of its pages yields
its text — extraction returns exactly the concatenation, in page order, of
each page's text followed by a newline; for a 0-page document this is the
empty string. -/
theorem extract_returns_pages_joined_by_newline (texts : List String) :
    (extract_text_from_pdf true (texts.map some)).result = Except.ok (concatNewline texts) := by
  simp [extract_text_from_pdf, readPages_map_some texts ""]

/-- C6: an upload rejected for its extension performs no state change: the
extension check (src/main.py:243-245) precedes both the file write
(src/main.py:254-255) and all database work, so no file is written, no row
is inserted, and the store is unchanged. -/
theorem upload_rejected_extension_no_state_change
    (o : UploadOracle) (now : Nat) (origName : String) (db : List UploadRow)
    (h : hasPdfExtension origName = false) :
    (upload_pdf o now origName db).fileWritten = false ∧
    (upload_pdf o now origName db).rowInserted = false ∧
    (upload_pdf o now origName db).newDb = db := by
  simp [upload_pdf, uploadBody, h]

/-- C6 witness: the rejection of "notes.txt" at concrete inputs. -/
theorem upload_rejected_extension_no_state_change_witness :
    hasPdfExtension "notes.txt" = false ∧
    ((upload_pdf uploadOk 0 "notes.txt" []).fileWritten = false ∧
     (upload_pdf uploadOk 0 "notes.txt" []).rowInserted = false ∧
     (upload_pdf uploadOk 0 "notes.txt" []).newDb = []) :=
  ⟨by decide, upload_rejected_extension_no_state_change uploadOk 0 "notes.txt" [] (by decide)⟩

/-- C8: under a normally-behaving database, `get_document` raises exactly
HTTPException 404 "Document not found" (src/main.py:352-353) for an
identifier no row carries — never an unhandled error — and returns the
full row for an identifier that is assigned (the row `fetchone` finds). -/
theorem get_document_unknown_id_404_known_id_full_row
    (db : List UploadRow) (docId : Nat) :
    ((∀ r ∈ db, r.id ≠ docId) →
      (get_document dbOk db docId).result = Except.error (.http ⟨404, "Document not found"⟩)) ∧
    (∀ row, selectById db docId = some row →
      (get_document dbOk db docId).result = Except.ok row) := by
  constructor
  · intro h
    have hnone : selectById db docId = none := by
      rw [selectById, List.find?_eq_none]
      intro r hr
      simp [h r hr]
    simp [get_document, dbOk, hnone]
  · intro row hrow
    simp [get_document, dbOk, hrow]

/-- C8 witness: identifier 7 over the empty store yields the 404. -/
theorem get_document_unknown_id_404_witness :
    (∀ r ∈ ([] : List UploadRow), r.id ≠ 7) ∧
    (get_document dbOk [] 7).result = Except.error (.http ⟨404, "Document not found"⟩) :=
  ⟨by simp, (get_document_unknown_id_404_known_id_full_row [] 7).1 (by simp)⟩

/-- C9: under a normally-behaving database, `get_documents` returns
`selectDocuments db`, a list that (i) is sorted in non-increasing
`created_at` order, (ii) is a permutation of the summaries of ALL stored
rows, and (iii) by the type `DocSummary` of its elements carries only the
`id`, `filename` and `created_at` fields — `extracted_text` and the
analysis payload are projected away (src/main.py:323-327). -/
theorem get_documents_sorted_desc_and_complete (db : List UploadRow) :
    (get_documents dbOk db).result = Except.ok (selectDocuments db) ∧
    List.Pairwise (fun a b : DocSummary => b.created_at ≤ a.created_at) (selectDocuments db) ∧
    (selectDocuments db).Perm (db.map docSummaryOf) := by
  refine ⟨rfl, ?_, ?_⟩
  · have htrans : ∀ a b c : UploadRow, createdDescLe a b = true → createdDescLe b c = true →
        createdDescLe a c = true := by
      intro a b c hab hbc
      simp only [createdDescLe, decide_eq_true_eq] at *
      omega
    have htotal : ∀ a b : UploadRow, (createdDescLe a b || createdDescLe b a) = true := by
      intro a b
      simp only [createdDescLe, Bool.or_eq_true, decide_eq_true_eq]
      omega
    have hs := List.sorted_mergeSort htrans htotal db
    refine List.Pairwise.map docSummaryOf ?_ hs
    intro a b hab
    simpa [createdDescLe, docSummaryOf] using hab
  · simpa [selectDocuments, orderByCreatedDesc] using
      (List.mergeSort_perm db createdDescLe).map docSummaryOf

/-- C10: the extension check lowercases the filename before testing the
".pdf" suffix (src/main.py:243), so an uppercase name such as
"REPORT.PDF" passes validation: the handler proceeds to write the uploaded
file rather than rejecting the request as a wrong file type. -/
theorem upload_uppercase_pdf_accepted
    (o : UploadOracle) (now : Nat) (origName : String) (db : List UploadRow)
    (hext : hasPdfExtension origName = true) (hsave : o.saveOk = true) :
    (upload_pdf o now origName db).fileWritten = true := by
  rw [upload_pdf_fileWritten_eq]
  unfold uploadBody
  rw [hext, hsave]
  simp only [if_true]
  cases hx : (extract_text_from_pdf o.openOk o.pages).result with
  | error e => simp [hx]
  | ok text =>
    cases ha : o.analysisResult with
    | error m => simp [hx, ha]
    | ok a =>
      cases hc : o.cursorOk <;> cases hi : o.insertOk <;> cases hcm : o.commitOk <;>
        simp [hx, ha, hc, hi, hcm]

/-- C10 witness: "REPORT.PDF" at concrete inputs. -/
theorem upload_uppercase_pdf_accepted_witness :
    (hasPdfExtension "REPORT.PDF" = true ∧ uploadOk.saveOk = true) ∧
    (upload_pdf uploadOk 0 "REPORT.PDF" []).fileWritten = true :=
  ⟨⟨by decide, rfl⟩, upload_uppercase_pdf_accepted uploadOk 0 "REPORT.PDF" [] (by decide) rfl⟩
